import Mathlib

/-!
Shallow embedding of `src/services/api.ts` from the
Somahar-Order-Management-App repository (a client-side service layer
for a delivery-order dashboard), together with proofs of the spec's
claims about it.

Modelling conventions:
* JS strings are Lean `String`s; `String.prototype.includes`,
  `startsWith`, `padStart`, `toLowerCase` and `replace(/\/$/, '')` are
  re-implemented below at the character-list level (all data involved
  is ASCII, where JS `toLowerCase` agrees with `Char.toLower`).
* `Math.random()` draws are modelled as explicit oracle functions
  collected in `MockRand`: `Math.floor(Math.random() * n)` always lands
  in `[0, n)`, hence `Fin n`-valued oracles, and `Math.random() > 0.5`
  is a `Bool`-valued oracle.
* The `types.ts` module is not part of the sources; the record shapes
  (`Order`, `ApiSettings`, `AppConfigResponse`, ...) are reconstructed
  from their uses inside `api.ts` and the spec's data-model section.
  In particular the optional API key is a `String` with the empty
  string standing for the absent/undefined key (both are falsy in JS,
  and `getHeaders` only tests truthiness).
* The network is an oracle too: a non-mock `request` receives a
  `FetchResult` (an HTTP response, or a thrown error) and we model what
  the `try/catch` does with it.  Stateless JS module code becomes pure
  functions; the (never-mutated) module-level `MOCK_ORDERS` list is
  threaded explicitly through the mock mutation handlers.
-/

/-- Character-list version of JS `String.prototype.startsWith`:
`hasPre p s` is true when `p` is an initial segment of `s`. -/
def hasPre : List Char → List Char → Bool
  | [], _ => true
  | _ :: _, [] => false
  | a :: as, b :: bs => a == b && hasPre as bs

/-- Character-list version of JS `String.prototype.includes`:
`hasSub sub s` is true when `sub` occurs contiguously inside `s`
(the empty list occurs in everything, as in JS). -/
def hasSub (sub : List Char) : List Char → Bool
  | [] => hasPre sub []
  | c :: t => hasPre sub (c :: t) || hasSub sub t

/-- JS `s.includes(sub)`. -/
def strContains (s sub : String) : Bool :=
  hasSub sub.data s.data

/-- JS `s.startsWith(p)`. -/
def strStarts (s p : String) : Bool :=
  hasPre p.data s.data

/-- JS `s.toLowerCase()` (ASCII; all repository data is ASCII). -/
def toLowerStr (s : String) : String :=
  String.mk (s.data.map Char.toLower)

/-- JS `s.padStart(n, c)`: left-pad with `c` up to length `n`. -/
def padStart (s : String) (n : Nat) (c : Char) : String :=
  String.mk (List.replicate (n - s.length) c) ++ s

/-- Drops a single trailing slash from a character list, embedding the
regex replace `baseUrl.replace(/\/$/, '')` of `api.ts`. -/
def dropTrailSlash : List Char → List Char
  | [] => []
  | c :: rest =>
    if rest.isEmpty then (if c == '/' then [] else [c])
    else c :: dropTrailSlash rest

/-- JS `baseUrl.replace(/\/$/, '')`. -/
def stripTrailingSlash (s : String) : String :=
  String.mk (dropTrailSlash s.data)

/-- The `Order` record of the app (fields as produced by
`generateMockOrders` in `api.ts`; `types.ts` itself is not in the
sources, so the field set is taken from those uses and the spec). -/
structure Order where
  id : Nat
  tracking_code : String
  buyer_name : String
  phone : String
  address : String
  police_station : String
  amount : String
  rider_name : String
  rider_phone : String
  estimated_delivery : String
  delivery_partner : String
  latest_status : String
  last_update : String
deriving Repr, DecidableEq

/-- Pagination metadata of an orders response. -/
structure Pagination where
  current_page : Nat
  total_pages : Nat
  total_items : Nat
deriving Repr, DecidableEq

/-- Shape of the `/orders` mock response in `api.ts`. -/
structure OrdersResponse where
  orders : List Order
  pagination : Pagination
deriving Repr, DecidableEq

/-- Shape of the `/app-config` response. -/
structure AppConfigResponse where
  delivery_partners : List String
  quick_statuses : List String
deriving Repr, DecidableEq

/-- The `partners` array inside `generateMockOrders`. -/
def partnersList : List String :=
  ["RedX", "Steadfast", "Pathao", "Paperfly"]

/-- The `statuses` array inside `generateMockOrders`. -/
def statusesList : List String :=
  ["Picked", "In Transit", "Out for Delivery", "Delivered", "Cancelled"]

/-- The police-station array inside `generateMockOrders`. -/
def stationsList : List String :=
  ["Gulshan", "Banani", "Dhanmondi", "Mirpur"]

/-- Oracle for the `Math.random()` draws of `generateMockOrders`, one
draw per order index.  `Math.floor(Math.random() * n)` always lies in
`[0, n)`, which the `Fin n` codomains capture; `Math.random() > 0.5`
is a boolean draw. -/
structure MockRand where
  road : Nat → Fin 20
  station : Nat → Fin 4
  amt : Nat → Fin 2000
  riderHasName : Nat → Bool
  riderHasPhone : Nat → Bool
  partnerIdx : Nat → Fin 4
  statusIdx : Nat → Fin 5

/-- The phone field of mock order `i`:
`` `017${String(i).padStart(8, '0')}` ``. -/
def mockPhone (i : Nat) : String :=
  "017" ++ padStart (toString i) 8 '0'

/-- The order built for index `i` inside `generateMockOrders`
(`api.ts` lines 16-31), with the random draws supplied by `r`. -/
def mkOrder (r : MockRand) (i : Nat) : Order where
  id := i + 1
  tracking_code := "ST-" ++ toString (8000 + i)
  buyer_name := "Customer " ++ toString (i + 1)
  phone := mockPhone i
  address := "House " ++ toString (i + 1) ++ ", Road " ++ toString (r.road i).val ++ ", Dhaka"
  police_station := stationsList.get ((r.station i).cast (by decide))
  amount := toString (500 + (r.amt i).val) ++ " BDT"
  rider_name := if r.riderHasName i then "Rider " ++ toString (i + 1) else ""
  rider_phone := if r.riderHasPhone i then "018..." else ""
  estimated_delivery := "2025-12-10"
  delivery_partner := partnersList.get ((r.partnerIdx i).cast (by decide))
  latest_status := statusesList.get ((r.statusIdx i).cast (by decide))
  last_update := "2025-12-07 10:30:00"

/-- `generateMockOrders(count)` from `api.ts`: one order per index of
`Array.from({length: count}, (_, i) => ...)`. -/
def generateMockOrders (r : MockRand) (count : Nat) : List Order :=
  (List.range count).map (mkOrder r)

/-- `const MOCK_ORDERS = generateMockOrders(45)`. -/
def MOCK_ORDERS (r : MockRand) : List Order :=
  generateMockOrders r 45

/-- `const MOCK_CONFIG` from `api.ts`. -/
def MOCK_CONFIG : AppConfigResponse where
  delivery_partners := ["RedX", "Steadfast", "Pathao", "Paperfly", "E-Courier", "In-House"]
  quick_statuses := ["Picked", "In Transit", "Out for Delivery", "Delivered", "Cancelled", "Returned"]

/-- The search predicate of the `/orders` mock branch (`api.ts`
lines 123-127); `search` is the already-lowercased query value:
`o.buyer_name.toLowerCase().includes(search) ||
 o.phone.includes(search) || o.tracking_code.toLowerCase().includes(search)`. -/
def matchesSearch (search : String) (o : Order) : Bool :=
  strContains (toLowerStr o.buyer_name) search ||
  strContains o.phone search ||
  strContains (toLowerStr o.tracking_code) search

/-- The sequential filtering of the `/orders` mock branch (`api.ts`
lines 119-138) applied to an arbitrary order list: lowercase the
search value, then filter by search, partner and status in turn, each
only when the corresponding query value is non-empty (JS truthiness of
a string). -/
def filterOrdersList (orders : List Order) (search partner status : String) : List Order :=
  let s := toLowerStr search
  let f1 := if s = "" then orders else orders.filter (fun o => matchesSearch s o)
  let f2 := if partner = "" then f1 else f1.filter (fun o => o.delivery_partner == partner)
  if status = "" then f2 else f2.filter (fun o => o.latest_status == status)

/-- The filtered set the `/orders` mock branch computes from the 45
generated orders. -/
def mockFiltered (r : MockRand) (search partner status : String) : List Order :=
  filterOrdersList (MOCK_ORDERS r) search partner status

/-- The `/orders` mock branch (`api.ts` lines 119-154) over an
arbitrary backing list: filter, then paginate with
`limit = 20`, `start = (page - 1) * limit`,
`paginatedOrders = filtered.slice(start, start + limit)`,
`totalPages = Math.ceil(filtered.length / limit)`, and response
`{orders, pagination: {current_page: page, total_pages: totalPages || 1,
total_items: filtered.length}}`.  For `page ≥ 1` the truncated
subtraction `page - 1` agrees with JS, and `slice(start, start+20)`
with non-negative `start` is `drop start` then `take 20`. -/
def ordersEndpointOn (orders : List Order) (page : Nat) (search partner status : String) : OrdersResponse :=
  let filtered := filterOrdersList orders search partner status
  let start := (page - 1) * 20
  let totalPages := (filtered.length + 19) / 20
  { orders := (filtered.drop start).take 20
    pagination :=
      { current_page := page
        total_pages := if totalPages = 0 then 1 else totalPages
        total_items := filtered.length } }

/-- `getOrders` in mock mode: the query parameters built by
`getOrders` round-trip through `URLSearchParams`/`URL` parsing in
`mockResponse` (a value is appended exactly when non-empty and read
back as the empty string when absent), so the mock branch receives the arguments
unchanged. -/
def mockGetOrders (r : MockRand) (page : Nat) (search partner status : String) : OrdersResponse :=
  ordersEndpointOn (MOCK_ORDERS r) page search partner status

/-- Connection settings supplied at construction (`ApiSettings` in the
absent `types.ts`; fields reconstructed from their uses in `api.ts`
and the spec's Settings description).  `apiKey = ""` models the
absent/undefined key: `getHeaders` only tests JS truthiness, for which
the empty string and `undefined` behave identically. -/
structure ApiSettings where
  baseUrl : String
  apiKey : String
  useMock : Bool
deriving Repr, DecidableEq

/-- `getHeaders(requireAuth)` from `api.ts` (lines 49-59): always a
`Content-Type` header, plus the `X-FBBOT-API-KEY` header exactly when
auth is required and a key is configured (truthy). -/
def getHeaders (settings : ApiSettings) (requireAuth : Bool) : List (String × String) :=
  [("Content-Type", "application/json")] ++
    (if requireAuth = true ∧ settings.apiKey ≠ ""
      then [("X-FBBOT-API-KEY", settings.apiKey)] else [])

/-- A thrown JS error, as observed by `catch (error)`: its `name` and
`message` fields (all errors thrown in `api.ts` are `new Error(msg)`,
whose `name` is `"Error"`). -/
structure JsError where
  name : String
  message : String
deriving Repr, DecidableEq

/-- What `fetch` resolved to: an HTTP response (status code and status
text), or a thrown error (e.g. the `TypeError: Failed to fetch` a
browser raises on CORS/offline failures). -/
inductive FetchResult where
  | resp (status : Nat) (statusText : String)
  | err (e : JsError)
deriving Repr, DecidableEq

/-- Outcome of the `try/catch` body of `request`: the parsed JSON is
returned, or an error is thrown to the caller. -/
inductive RequestOutcome where
  | ok
  | threw (e : JsError)
deriving Repr, DecidableEq

/-- What a call to `request` did: dispatched to the mock responder
(mock mode), threw the configuration error before any fetch, or
performed a fetch to `url` with `headers` and finished with
`outcome`. -/
inductive RequestStep where
  | mockDispatch
  | configError (e : JsError)
  | fetched (url : String) (headers : List (String × String)) (outcome : RequestOutcome)
deriving Repr, DecidableEq

/-- The `try/catch` of `request` (`api.ts` lines 77-102) applied to
what `fetch` produced.  `response.ok` is status 200-299.  The errors
thrown on non-ok statuses inside the `try` are `Error`s, so the
`catch` re-throws them unchanged (its `TypeError`/`Failed to fetch`
test fails on them).  `pageHttps` models
`window.location.protocol === 'https:'`. -/
def handleFetch (url : String) (pageHttps : Bool) (net : FetchResult) : RequestOutcome :=
  match net with
  | .resp status statusText =>
    if 200 ≤ status ∧ status ≤ 299 then .ok
    else if status = 401 then .threw ⟨"Error", "Invalid API Key"⟩
    else if status = 404 then .threw ⟨"Error", "Endpoint not found. Check your WordPress URL."⟩
    else .threw ⟨"Error", "API Error: " ++ toString status ++ " " ++ statusText⟩
  | .err e =>
    if e.name == "TypeError" && e.message == "Failed to fetch" then
      if pageHttps && strStarts url "http:" then
        .threw ⟨"Error", "Security Error: Cannot connect to an HTTP server from an HTTPS app. Your WordPress site must use HTTPS."⟩
      else
        .threw ⟨"Error", "Network request blocked. This is likely a CORS issue on your WordPress site."⟩
    else .threw e

/-- The URL a non-mock `request` fetches:
`baseUrl.replace(/\/$/, '') + endpoint`. -/
def requestUrl (settings : ApiSettings) (endpoint : String) : String :=
  stripTrailingSlash settings.baseUrl ++ endpoint

/-- `request(endpoint, options, requireAuth)` from `api.ts`
(lines 64-103).  Mock mode dispatches to the mock responder (modelled
separately by `mockGetOrders`, `mockAddOrder`, ...).  Otherwise an
empty or placeholder-containing base URL throws the configuration
error before any fetch; otherwise the request is fetched with the
headers from `getHeaders` (the public methods never pass their own
`options.headers`, so the spread adds nothing) and the `try/catch`
handles the result `net` of the fetch. -/
def request (settings : ApiSettings) (endpoint : String) (requireAuth : Bool)
    (pageHttps : Bool) (net : FetchResult) : RequestStep :=
  if settings.useMock then .mockDispatch
  else if settings.baseUrl = "" ∨ strContains settings.baseUrl "your-wordpress-site.com" = true then
    .configError ⟨"Error", "Invalid API URL. Please configure a real WordPress URL."⟩
  else
    .fetched (requestUrl settings endpoint) (getHeaders settings requireAuth)
      (handleFetch (requestUrl settings endpoint) pageHttps net)

/-- The placeholder base URL the settings default to (the spec's
"placeholder value"); the code's check is
`baseUrl.includes('your-wordpress-site.com')`, which in particular
fires when the base URL equals the placeholder. -/
def placeholderUrl : String :=
  "https://your-wordpress-site.com"

/-- The five public methods of the service class. -/
inductive ApiCall where
  | getConfig
  | getOrders
  | addOrder
  | updateStatus
  | updateDetails
deriving Repr, DecidableEq

/-- The `requireAuth` argument each public method passes to `request`
(`api.ts` lines 175-210): `false` for `getConfig`, `true` for the
rest. -/
def callRequireAuth : ApiCall → Bool
  | .getConfig => false
  | _ => true

/-- The headers a given public method's request is built with (no
method passes `options.headers`, so they are exactly
`getHeaders(requireAuth)`). -/
def headersFor (settings : ApiSettings) (c : ApiCall) : List (String × String) :=
  getHeaders settings (callRequireAuth c)

/-- Mock response shape for `/add-order`. -/
structure AddOrderResult where
  success : Bool
  message : String
  tracking_code : String
  order_id : Nat
deriving Repr, DecidableEq

/-- Mock response shape for `/update-status` and `/update-details`. -/
structure UpdateResult where
  success : Bool
  message : String
deriving Repr, DecidableEq

/-- The `/add-order` mock branch (`api.ts` lines 157-164).  The
module-level order list is threaded as explicit state; the handler
performs no assignment to it, so it is returned unchanged.  The two
`Math.random()` draws are the `Fin` oracles `t` and `d`. -/
def mockAddOrder (t : Fin 1000) (d : Fin 10000) (state : List Order) :
    AddOrderResult × List Order :=
  ({ success := true
     message := "Order created successfully (Mock)"
     tracking_code := "MOCK-" ++ toString t.val
     order_id := d.val }, state)

/-- The `/update-status` / `/update-details` mock branch (`api.ts`
lines 166-168), with the order list threaded as explicit state and
returned unchanged. -/
def mockUpdate (state : List Order) : UpdateResult × List Order :=
  ({ success := true, message := "Updated successfully (Mock)" }, state)

/-- The constant random oracle (every draw is 0 / `false`), used to
instantiate universally quantified theorems at a concrete input. -/
def constRand : MockRand where
  road := fun _ => 0
  station := fun _ => 0
  amt := fun _ => 0
  riderHasName := fun _ => false
  riderHasPhone := fun _ => false
  partnerIdx := fun _ => 0
  statusIdx := fun _ => 0

lemma toLowerStr_eq_empty_iff (s : String) : toLowerStr s = "" ↔ s = "" := by
  cases s with
  | mk data =>
    cases data with
    | nil => exact Iff.rfl
    | cons c t =>
      constructor <;> intro h <;> exact absurd (congrArg String.data h) (by simp [toLowerStr])

/-- Membership in the sequentially filtered list is exactly membership
in the backing list together with every supplied filter condition:
the three filters are ANDed. -/
lemma mem_filterOrdersList {l : List Order} {s p st : String} {o : Order} :
    o ∈ filterOrdersList l s p st ↔
      o ∈ l ∧ (s ≠ "" → matchesSearch (toLowerStr s) o = true)
            ∧ (p ≠ "" → o.delivery_partner = p)
            ∧ (st ≠ "" → o.latest_status = st) := by
  unfold filterOrdersList
  by_cases hs : s = "" <;> by_cases hp : p = "" <;> by_cases hst : st = "" <;>
    simp [hs, hp, hst, toLowerStr_eq_empty_iff, List.mem_filter, and_assoc] <;>
    aesop

/-- Concatenating the 20-element slices at offsets `0, 20, ..., (n-1)*20`
of a list yields its first `n * 20` elements. -/
lemma flatten_chunks (l : List Order) (n : Nat) :
    ((List.range n).map (fun k => (l.drop (k * 20)).take 20)).flatten = l.take (n * 20) := by
  induction n with
  | zero => simp
  | succ n ih =>
    rw [List.range_succ, List.map_append, List.flatten_append, ih]
    rw [show (n + 1) * 20 = n * 20 + 20 by ring, List.take_add]
    simp

/-- The ceiling divisor `(len + 19) / 20`, clamped below by 1, times 20
covers `len`. -/
lemma len_le_pages_mul (len : Nat) :
    len ≤ (if (len + 19) / 20 = 0 then 1 else (len + 19) / 20) * 20 := by
  have h := Nat.div_add_mod (len + 19) 20
  have h2 : (len + 19) % 20 < 20 := Nat.mod_lt _ (by norm_num)
  split <;> omega

/-- C1: every order returned by `getOrders` in mock mode satisfies
every supplied filter simultaneously (search AND partner AND status),
with the partner and status filters being exact (case-sensitive)
string equality on `delivery_partner` and `latest_status`. -/
theorem c1_mock_filters_anded (r : MockRand) (page : Nat) (search partner status : String)
    (o : Order) (ho : o ∈ (mockGetOrders r page search partner status).orders) :
    (search ≠ "" → matchesSearch (toLowerStr search) o = true) ∧
    (partner ≠ "" → o.delivery_partner = partner) ∧
    (status ≠ "" → o.latest_status = status) := by
  have hf : o ∈ filterOrdersList (MOCK_ORDERS r) search partner status := by
    have h1 : o ∈ (filterOrdersList (MOCK_ORDERS r) search partner status).drop
        ((page - 1) * 20) := List.take_subset _ _ ho
    exact List.drop_subset _ _ h1
  exact (mem_filterOrdersList.mp hf).2

/-- Witness for C1 at a concrete input: the first mock order under the
constant oracle is on page 1 of the partner-filtered listing, and the
theorem yields its partner equality. -/
theorem c1_mock_filters_anded_w : (mkOrder constRand 0).delivery_partner = "RedX" :=
  (c1_mock_filters_anded constRand 1 "" "RedX" "" (mkOrder constRand 0)
    (by decide)).2.1 (by decide)

/-- C2: for every filter combination in mock mode, `total_items` is the
filtered set's size, `total_pages` is `ceil(filtered / 20)` clamped
below by 1, every page holds at most 20 orders, and concatenating the
orders of pages `1 .. total_pages` in page order reproduces the whole
filtered set (hence no duplicates or omissions). -/
theorem c2_mock_pagination (r : MockRand) (search partner status : String) :
    (∀ page, (mockGetOrders r page search partner status).pagination.total_items =
        (mockFiltered r search partner status).length) ∧
    (∀ page, (mockGetOrders r page search partner status).pagination.total_pages =
        max 1 (((mockFiltered r search partner status).length + 19) / 20)) ∧
    (∀ page, (mockGetOrders r page search partner status).orders.length ≤ 20) ∧
    ((List.range ((mockGetOrders r 1 search partner status).pagination.total_pages)).map
        (fun k => (mockGetOrders r (k + 1) search partner status).orders)).flatten =
      mockFiltered r search partner status := by
  refine ⟨fun page => rfl, fun page => ?_, fun page => ?_, ?_⟩
  · show (if ((mockFiltered r search partner status).length + 19) / 20 = 0 then 1
        else ((mockFiltered r search partner status).length + 19) / 20) =
      max 1 (((mockFiltered r search partner status).length + 19) / 20)
    split <;> omega
  · show (((mockFiltered r search partner status).drop ((page - 1) * 20)).take 20).length ≤ 20
    simp [List.length_take]
  · show ((List.range (if ((mockFiltered r search partner status).length + 19) / 20 = 0 then 1
        else ((mockFiltered r search partner status).length + 19) / 20)).map
        (fun k => ((mockFiltered r search partner status).drop ((k + 1 - 1) * 20)).take 20)).flatten =
      mockFiltered r search partner status
    simp only [Nat.add_sub_cancel]
    rw [flatten_chunks]
    exact List.take_of_length_le (len_le_pages_mul _)

/-- C9: a page number at or past the end of the filtered set yields an
empty orders array, while `current_page` still echoes the requested
page (no clamping, no error) and `total_pages`/`total_items` are
computed from the filtered set as usual. -/
theorem c9_mock_out_of_range_page (r : MockRand) (page : Nat) (search partner status : String)
    (hp : 1 ≤ page)
    (hbig : (mockFiltered r search partner status).length ≤ (page - 1) * 20) :
    (mockGetOrders r page search partner status).orders = [] ∧
    (mockGetOrders r page search partner status).pagination.current_page = page ∧
    (mockGetOrders r page search partner status).pagination.total_items =
      (mockFiltered r search partner status).length ∧
    (mockGetOrders r page search partner status).pagination.total_pages =
      max 1 (((mockFiltered r search partner status).length + 19) / 20) := by
  refine ⟨?_, rfl, rfl, ?_⟩
  · show (((mockFiltered r search partner status).drop ((page - 1) * 20)).take 20) = []
    rw [List.drop_eq_nil_of_le hbig]
    rfl
  · show (if ((mockFiltered r search partner status).length + 19) / 20 = 0 then 1
        else ((mockFiltered r search partner status).length + 19) / 20) =
      max 1 (((mockFiltered r search partner status).length + 19) / 20)
    split <;> omega

/-- Witness for C9 at a concrete input: page 4 of the unfiltered
45-order mock set is past the end, so its orders array is empty and
`current_page` is still 4. -/
theorem c9_mock_out_of_range_page_w :
    (mockGetOrders constRand 4 "" "" "").orders = [] ∧
    (mockGetOrders constRand 4 "" "" "").pagination.current_page = 4 :=
  ⟨(c9_mock_out_of_range_page constRand 4 "" "" "" (by norm_num) (by decide)).1,
   (c9_mock_out_of_range_page constRand 4 "" "" "" (by norm_num) (by decide)).2.1⟩

lemma mockPhone_toLower : ∀ i, i < 45 → toLowerStr (mockPhone i) = mockPhone i := by decide

/-- Modelled from the spec: "the search string occurs case-insensitively
as a substring of the field" — lowercase both and test substring
containment.  This is the spec-side definition C3 compares the code's
search predicate against. -/
def specCiMatch (field pat : String) : Bool :=
  strContains (toLowerStr field) (toLowerStr pat)

/-- C3: on every mock order, the search predicate `getOrders` applies
in mock mode (to the lowercased query) coincides with a
case-insensitive substring match against the buyer name, the phone and
the tracking code, and an order passes the search-only filter exactly
when one of the three fields matches case-insensitively. -/
theorem c3_search_case_insensitive (r : MockRand) (search : String) (o : Order)
    (ho : o ∈ MOCK_ORDERS r) :
    matchesSearch (toLowerStr search) o =
      (specCiMatch o.buyer_name search || specCiMatch o.phone search ||
        specCiMatch o.tracking_code search) ∧
    (search ≠ "" →
      (o ∈ mockFiltered r search "" "" ↔
        (specCiMatch o.buyer_name search = true ∨ specCiMatch o.phone search = true ∨
          specCiMatch o.tracking_code search = true))) := by
  have ho' : o ∈ (List.range 45).map (mkOrder r) := ho
  obtain ⟨i, hi, rfl⟩ := List.mem_map.mp ho'
  have hi45 : i < 45 := List.mem_range.mp hi
  have hphone : toLowerStr (mockPhone i) = mockPhone i := mockPhone_toLower i hi45
  have heq : matchesSearch (toLowerStr search) (mkOrder r i) =
      (specCiMatch (mkOrder r i).buyer_name search || specCiMatch (mkOrder r i).phone search ||
        specCiMatch (mkOrder r i).tracking_code search) := by
    simp [matchesSearch, specCiMatch, mkOrder, hphone]
  refine ⟨heq, fun hs => ?_⟩
  rw [mockFiltered, mem_filterOrdersList]
  simp [ho, hs, heq, or_assoc]

/-- Witness for C3 at a concrete input: an upper-case query against the
first mock order, whose buyer name matches case-insensitively. -/
theorem c3_search_case_insensitive_w :
    matchesSearch (toLowerStr "CUSTOMER 1") (mkOrder constRand 0) =
      (specCiMatch (mkOrder constRand 0).buyer_name "CUSTOMER 1" ||
        specCiMatch (mkOrder constRand 0).phone "CUSTOMER 1" ||
        specCiMatch (mkOrder constRand 0).tracking_code "CUSTOMER 1") :=
  (c3_search_case_insensitive constRand "CUSTOMER 1" (mkOrder constRand 0) (by decide)).1

/-- C4: with a key configured, every non-public call (everything but
`getConfig`) carries the `X-FBBOT-API-KEY` header; with no key
configured the header is absent entirely (never sent empty); and
`getConfig` never carries the key header even when a key is
configured. -/
theorem c4_api_key_header (s : ApiSettings) (c : ApiCall) :
    (s.apiKey ≠ "" → c ≠ ApiCall.getConfig →
      ("X-FBBOT-API-KEY", s.apiKey) ∈ headersFor s c) ∧
    (s.apiKey = "" → ∀ v, ("X-FBBOT-API-KEY", v) ∉ headersFor s c) ∧
    (∀ v, ("X-FBBOT-API-KEY", v) ∉ headersFor s ApiCall.getConfig) := by
  refine ⟨fun hk hc => ?_, fun hk v => ?_, fun v => ?_⟩
  · cases c <;>
      first
        | exact absurd rfl hc
        | simp [headersFor, getHeaders, callRequireAuth, hk]
  · cases c <;> simp [headersFor, getHeaders, callRequireAuth, hk]
  · simp [headersFor, getHeaders, callRequireAuth]

/-- Witness for C4 at a concrete input: a configured key appears in the
headers of `getOrders`. -/
theorem c4_api_key_header_w :
    ("X-FBBOT-API-KEY", "secret") ∈
      headersFor ⟨"https://example.com", "secret", false⟩ ApiCall.getOrders :=
  (c4_api_key_header ⟨"https://example.com", "secret", false⟩ ApiCall.getOrders).1
    (by decide) (by decide)

/-- C5: a non-mock call with an empty or placeholder base URL throws
the configuration error, and in particular no fetch is performed. -/
theorem c5_config_error_before_fetch (s : ApiSettings) (endpoint : String)
    (auth pageHttps : Bool) (net : FetchResult) (hm : s.useMock = false)
    (hurl : s.baseUrl = "" ∨ s.baseUrl = placeholderUrl) :
    request s endpoint auth pageHttps net =
      RequestStep.configError ⟨"Error", "Invalid API URL. Please configure a real WordPress URL."⟩ ∧
    ∀ url hs out, request s endpoint auth pageHttps net ≠ RequestStep.fetched url hs out := by
  have hcond : s.baseUrl = "" ∨ strContains s.baseUrl "your-wordpress-site.com" = true := by
    rcases hurl with h | h
    · exact Or.inl h
    · exact Or.inr (by rw [h]; decide)
  have hreq : request s endpoint auth pageHttps net =
      RequestStep.configError ⟨"Error", "Invalid API URL. Please configure a real WordPress URL."⟩ := by
    unfold request
    rw [hm]
    rw [if_neg (by simp)]
    rw [if_pos hcond]
  exact ⟨hreq, fun url hs out h => by rw [hreq] at h; exact RequestStep.noConfusion h⟩

/-- Witness for C5 at a concrete input: the placeholder base URL in
non-mock mode yields the configuration error. -/
theorem c5_config_error_before_fetch_w :
    request ⟨placeholderUrl, "", false⟩ "/orders" true false (FetchResult.resp 200 "OK") =
      RequestStep.configError ⟨"Error", "Invalid API URL. Please configure a real WordPress URL."⟩ :=
  (c5_config_error_before_fetch ⟨placeholderUrl, "", false⟩ "/orders" true false
    (FetchResult.resp 200 "OK") rfl (Or.inr rfl)).1

/-- With mock mode off and a valid base URL, `request` always fetches
the built URL with the built headers and hands the fetch's result to
the `try/catch` normalization. -/
lemma request_fetches (s : ApiSettings) (endpoint : String) (auth pageHttps : Bool)
    (net : FetchResult) (hm : s.useMock = false) (h1 : s.baseUrl ≠ "")
    (h2 : strContains s.baseUrl "your-wordpress-site.com" = false) :
    request s endpoint auth pageHttps net =
      RequestStep.fetched (requestUrl s endpoint) (getHeaders s auth)
        (handleFetch (requestUrl s endpoint) pageHttps net) := by
  unfold request
  rw [hm]
  rw [if_neg (by simp)]
  rw [if_neg (by simp [h1, h2])]

/-- C6: HTTP status normalization of a non-mock call: 401 throws the
invalid-credentials error, 404 throws the endpoint-not-found error,
any other non-2xx status throws the generic API error carrying the
status code and reason, and a 2xx response throws none of them. -/
theorem c6_http_status_errors (s : ApiSettings) (endpoint : String) (auth pageHttps : Bool)
    (status : Nat) (statusText : String) (hm : s.useMock = false) (h1 : s.baseUrl ≠ "")
    (h2 : strContains s.baseUrl "your-wordpress-site.com" = false) :
    (status = 401 → request s endpoint auth pageHttps (FetchResult.resp status statusText) =
      RequestStep.fetched (requestUrl s endpoint) (getHeaders s auth)
        (RequestOutcome.threw ⟨"Error", "Invalid API Key"⟩)) ∧
    (status = 404 → request s endpoint auth pageHttps (FetchResult.resp status statusText) =
      RequestStep.fetched (requestUrl s endpoint) (getHeaders s auth)
        (RequestOutcome.threw ⟨"Error", "Endpoint not found. Check your WordPress URL."⟩)) ∧
    (¬(200 ≤ status ∧ status ≤ 299) → status ≠ 401 → status ≠ 404 →
      request s endpoint auth pageHttps (FetchResult.resp status statusText) =
        RequestStep.fetched (requestUrl s endpoint) (getHeaders s auth)
          (RequestOutcome.threw
            ⟨"Error", "API Error: " ++ toString status ++ " " ++ statusText⟩)) ∧
    (200 ≤ status → status ≤ 299 →
      request s endpoint auth pageHttps (FetchResult.resp status statusText) =
        RequestStep.fetched (requestUrl s endpoint) (getHeaders s auth)
          RequestOutcome.ok) := by
  refine ⟨fun h => ?_, fun h => ?_, fun hno h401 h404 => ?_, fun ha hb => ?_⟩
  · rw [request_fetches s endpoint auth pageHttps _ hm h1 h2]
    subst h
    simp [handleFetch]
  · rw [request_fetches s endpoint auth pageHttps _ hm h1 h2]
    subst h
    simp [handleFetch]
  · rw [request_fetches s endpoint auth pageHttps _ hm h1 h2]
    simp only [handleFetch]
    rw [if_neg hno, if_neg h401, if_neg h404]
  · rw [request_fetches s endpoint auth pageHttps _ hm h1 h2]
    simp only [handleFetch]
    rw [if_pos ⟨ha, hb⟩]

/-- Witness for C6 at a concrete input: a 401 response to a non-mock
call throws the invalid-credentials error, not the generic one. -/
theorem c6_http_status_errors_w :
    request ⟨"https://example.com", "k", false⟩ "/orders" true false
        (FetchResult.resp 401 "Unauthorized") =
      RequestStep.fetched (requestUrl ⟨"https://example.com", "k", false⟩ "/orders")
        (getHeaders ⟨"https://example.com", "k", false⟩ true)
        (RequestOutcome.threw ⟨"Error", "Invalid API Key"⟩) :=
  (c6_http_status_errors ⟨"https://example.com", "k", false⟩ "/orders" true false 401
    "Unauthorized" rfl (by decide) (by decide)).1 rfl

/-- C7: transport-failure normalization of a non-mock call: a
`TypeError: Failed to fetch` is re-classified as the mixed-content
security error when the page is https and the target URL is http, and
as the generic request-blocked error otherwise; every other thrown
error propagates to the caller unchanged. -/
theorem c7_transport_errors (s : ApiSettings) (endpoint : String) (auth pageHttps : Bool)
    (e : JsError) (hm : s.useMock = false) (h1 : s.baseUrl ≠ "")
    (h2 : strContains s.baseUrl "your-wordpress-site.com" = false) :
    (e.name = "TypeError" → e.message = "Failed to fetch" → pageHttps = true →
      strStarts (requestUrl s endpoint) "http:" = true →
      request s endpoint auth pageHttps (FetchResult.err e) =
        RequestStep.fetched (requestUrl s endpoint) (getHeaders s auth)
          (RequestOutcome.threw ⟨"Error",
            "Security Error: Cannot connect to an HTTP server from an HTTPS app. Your WordPress site must use HTTPS."⟩)) ∧
    (e.name = "TypeError" → e.message = "Failed to fetch" →
      ¬(pageHttps = true ∧ strStarts (requestUrl s endpoint) "http:" = true) →
      request s endpoint auth pageHttps (FetchResult.err e) =
        RequestStep.fetched (requestUrl s endpoint) (getHeaders s auth)
          (RequestOutcome.threw ⟨"Error",
            "Network request blocked. This is likely a CORS issue on your WordPress site."⟩)) ∧
    (¬(e.name = "TypeError" ∧ e.message = "Failed to fetch") →
      request s endpoint auth pageHttps (FetchResult.err e) =
        RequestStep.fetched (requestUrl s endpoint) (getHeaders s auth)
          (RequestOutcome.threw e)) := by
  refine ⟨fun hn hmsg hph hst => ?_, fun hn hmsg hnot => ?_, fun hnot => ?_⟩
  · rw [request_fetches s endpoint auth pageHttps _ hm h1 h2]
    simp only [handleFetch]
    rw [if_pos (by simp [hn, hmsg]), if_pos (by simp [hph, hst])]
  · rw [request_fetches s endpoint auth pageHttps _ hm h1 h2]
    simp only [handleFetch]
    rw [if_pos (by simp [hn, hmsg]), if_neg (by rw [Bool.and_eq_true]; exact hnot)]
  · rw [request_fetches s endpoint auth pageHttps _ hm h1 h2]
    simp only [handleFetch]
    rw [if_neg (by simp [Bool.and_eq_true, beq_iff_eq]; tauto)]

/-- Witness for C7 at a concrete input: a failed fetch of an http URL
from an https page is reported as the mixed-content security error. -/
theorem c7_transport_errors_w :
    request ⟨"http://example.com", "k", false⟩ "/orders" true true
        (FetchResult.err ⟨"TypeError", "Failed to fetch"⟩) =
      RequestStep.fetched (requestUrl ⟨"http://example.com", "k", false⟩ "/orders")
        (getHeaders ⟨"http://example.com", "k", false⟩ true)
        (RequestOutcome.threw ⟨"Error",
          "Security Error: Cannot connect to an HTTP server from an HTTPS app. Your WordPress site must use HTTPS."⟩) :=
  (c7_transport_errors ⟨"http://example.com", "k", false⟩ "/orders" true true
    ⟨"TypeError", "Failed to fetch"⟩ rfl (by decide) (by decide)).1 rfl rfl rfl (by decide)

/-- C8: mock-mode mutating calls report success yet leave the
in-memory order list untouched, so any later mock `getOrders` sees the
same 45-order data set as before.  The (never-reassigned) module-level
list is threaded as explicit state through the handlers. -/
theorem c8_mock_mutations_no_persist (r : MockRand) (t : Fin 1000) (d : Fin 10000) :
    (mockAddOrder t d (MOCK_ORDERS r)).1.success = true ∧
    (mockAddOrder t d (MOCK_ORDERS r)).2 = MOCK_ORDERS r ∧
    (mockUpdate (MOCK_ORDERS r)).1.success = true ∧
    (mockUpdate (MOCK_ORDERS r)).2 = MOCK_ORDERS r ∧
    (MOCK_ORDERS r).length = 45 ∧
    (∀ page search partner status,
      ordersEndpointOn (mockAddOrder t d (MOCK_ORDERS r)).2 page search partner status =
        mockGetOrders r page search partner status ∧
      ordersEndpointOn (mockUpdate (MOCK_ORDERS r)).2 page search partner status =
        mockGetOrders r page search partner status) := by
  refine ⟨rfl, rfl, rfl, rfl, ?_, fun page search partner status => ⟨rfl, rfl⟩⟩
  simp [MOCK_ORDERS, generateMockOrders]

/-- Every generated mock order draws its partner and status from the
generator's four-partner / five-status pools. -/
lemma mock_order_pools (r : MockRand) (o : Order) (ho : o ∈ MOCK_ORDERS r) :
    o.delivery_partner ∈ partnersList ∧ o.latest_status ∈ statusesList := by
  have ho' : o ∈ (List.range 45).map (mkOrder r) := ho
  obtain ⟨i, hi, rfl⟩ := List.mem_map.mp ho'
  exact ⟨List.get_mem _ _ _, List.get_mem _ _ _⟩

/-- C10: every generated mock order's partner is one of the four
generator partners and its status one of the five generator statuses;
hence filtering by the extra values the mock config additionally
advertises (partner "E-Courier" or "In-House", status "Returned")
always yields an empty result with `total_items = 0`. -/
theorem c10_mock_pools_vs_config (r : MockRand) :
    (∀ o ∈ MOCK_ORDERS r, o.delivery_partner ∈ partnersList ∧ o.latest_status ∈ statusesList) ∧
    (∀ page search partner status, partner = "E-Courier" ∨ partner = "In-House" →
      partner ∈ MOCK_CONFIG.delivery_partners ∧
      (mockGetOrders r page search partner status).orders = [] ∧
      (mockGetOrders r page search partner status).pagination.total_items = 0) ∧
    (∀ page search partner,
      "Returned" ∈ MOCK_CONFIG.quick_statuses ∧
      (mockGetOrders r page search partner "Returned").orders = [] ∧
      (mockGetOrders r page search partner "Returned").pagination.total_items = 0) := by
  refine ⟨mock_order_pools r, fun page search partner status hpartner => ?_,
    fun page search partner => ?_⟩
  · have hfe : filterOrdersList (MOCK_ORDERS r) search partner status = [] := by
      rw [List.eq_nil_iff_forall_not_mem]
      intro o ho
      have h := mem_filterOrdersList.mp ho
      have hne : partner ≠ "" := by rcases hpartner with h' | h' <;> subst h' <;> decide
      have hop : o.delivery_partner = partner := h.2.2.1 hne
      have hin : o.delivery_partner ∈ partnersList := (mock_order_pools r o h.1).1
      rw [hop] at hin
      rcases hpartner with h' | h' <;> subst h' <;> revert hin <;> decide
    refine ⟨by rcases hpartner with h' | h' <;> subst h' <;> decide, ?_, ?_⟩
    · show ((filterOrdersList (MOCK_ORDERS r) search partner status).drop
          ((page - 1) * 20)).take 20 = []
      rw [hfe]
      simp
    · show (filterOrdersList (MOCK_ORDERS r) search partner status).length = 0
      rw [hfe]
      rfl
  · have hfe : filterOrdersList (MOCK_ORDERS r) search partner "Returned" = [] := by
      rw [List.eq_nil_iff_forall_not_mem]
      intro o ho
      have h := mem_filterOrdersList.mp ho
      have hop : o.latest_status = "Returned" := h.2.2.2 (by decide)
      have hin : o.latest_status ∈ statusesList := (mock_order_pools r o h.1).2
      rw [hop] at hin
      revert hin
      decide
    refine ⟨by decide, ?_, ?_⟩
    · show ((filterOrdersList (MOCK_ORDERS r) search partner "Returned").drop
          ((page - 1) * 20)).take 20 = []
      rw [hfe]
      simp
    · show (filterOrdersList (MOCK_ORDERS r) search partner "Returned").length = 0
      rw [hfe]
      rfl

/-- Witness for C10 at a concrete input: the first mock order's partner
is in the generator pool, and filtering by the config-only partner
"E-Courier" returns an empty page with zero items. -/
theorem c10_mock_pools_vs_config_w :
    (mkOrder constRand 0).delivery_partner ∈ partnersList ∧
    (mockGetOrders constRand 1 "" "E-Courier" "").orders = [] ∧
    (mockGetOrders constRand 1 "" "E-Courier" "").pagination.total_items = 0 :=
  ⟨((c10_mock_pools_vs_config constRand).1 (mkOrder constRand 0) (by decide)).1,
   ((c10_mock_pools_vs_config constRand).2.1 1 "" "E-Courier" "" (Or.inl rfl)).2.1,
   ((c10_mock_pools_vs_config constRand).2.1 1 "" "E-Courier" "" (Or.inl rfl)).2.2⟩
